import Mathlib

/-!
Shallow embedding of `src/main.py`, a Telegram promotion/forwarding bot.

Python strings are modelled as lists of characters (`PyStr`).  Python `None`
and `""` are both falsy in every place the code tests a string, so an absent
optional string is modelled as the empty list.  Each handler becomes a pure
function on an explicit `BotState`; the outcome of each outbound transport
call (which may raise) is supplied as a boolean or per-recipient oracle, and
the outbound calls a handler performs are returned as an explicit effect value.
-/

namespace Bot

/-- Python strings, modelled as lists of characters. -/
abbrev PyStr := List Char

/-- Python's default whitespace set, as used by `str.strip()` and `str.split()`. -/
def pyIsSpace (c : Char) : Bool :=
  c = ' ' || c = '\t' || c = '\n' || c = '\r' || c = '\x0b' || c = '\x0c'

/-- The ASCII uppercase/lowercase pairs: the range of `str.lower` this bot's
data exercises (keywords and message content are compared after lowering). -/
def upperLowerTable : List (Char × Char) :=
  [('A','a'),('B','b'),('C','c'),('D','d'),('E','e'),('F','f'),('G','g'),
   ('H','h'),('I','i'),('J','j'),('K','k'),('L','l'),('M','m'),('N','n'),
   ('O','o'),('P','p'),('Q','q'),('R','r'),('S','s'),('T','t'),('U','u'),
   ('V','v'),('W','w'),('X','x'),('Y','y'),('Z','z')]

/-- Python `str.lower()` on one character (ASCII range). -/
def pyLowerChar (c : Char) : Char :=
  match upperLowerTable.find? (fun p => p.1 = c) with
  | some p => p.2
  | none => c

/-- Python `str.lower()`. -/
def pyLower (s : PyStr) : PyStr := s.map pyLowerChar

/-- Python `str.strip()`: remove leading and trailing whitespace. -/
def pyStrip (s : PyStr) : PyStr :=
  ((s.dropWhile pyIsSpace).reverse.dropWhile pyIsSpace).reverse

/-- Python `str.split(',')`: split at every comma; n commas give n+1 pieces. -/
def pySplitComma : PyStr → List PyStr
  | [] => [[]]
  | c :: rest =>
    if c = ',' then [] :: pySplitComma rest
    else
      match pySplitComma rest with
      | [] => [[c]]
      | p :: ps => (c :: p) :: ps

/-- Accumulator loop for Python `str.split()` (no argument): split at runs of
whitespace, producing no empty pieces. -/
def pySplitWsAux : PyStr → PyStr → List PyStr
  | [], acc => if acc.isEmpty then [] else [acc.reverse]
  | c :: rest, acc =>
    if pyIsSpace c then
      if acc.isEmpty then pySplitWsAux rest []
      else acc.reverse :: pySplitWsAux rest []
    else pySplitWsAux rest (c :: acc)

/-- Python `str.split()` with no argument. -/
def pySplitWs (s : PyStr) : List PyStr := pySplitWsAux s []

/-- Python `" ".join(xs)`. -/
def joinSpace : List PyStr → PyStr
  | [] => []
  | [x] => x
  | x :: y :: xs => x ++ ' ' :: joinSpace (y :: xs)

/-- `main.py` line 66:
`BLACKLIST_KEYWORDS = [keyword.strip().lower() for keyword in blacklist_str.split(',') if keyword.strip()]`. -/
def loadBlacklist (blacklist_str : PyStr) : List PyStr :=
  (pySplitComma blacklist_str).filterMap fun keyword =>
    if (pyStrip keyword).isEmpty then none else some (pyLower (pyStrip keyword))

/-- `main.py` line 68, the mutable `SETTINGS` dict.  `SILENT_POST` starts
`False`; `FORWARD_FOOTER` and `WELCOME_MESSAGE` come from the environment and
may be absent (`None`) — the code only ever tests them for truthiness, so the
absent case is modelled as the empty string. -/
structure Settings where
  silentPost : Bool
  forwardFooter : PyStr
  welcomeMessage : PyStr
deriving DecidableEq

/-- `main.py` line 70, the `STATS` counters. -/
structure Stats where
  ads_sent : Nat
  forwards_done : Nat
  welcomes_sent : Nat
deriving DecidableEq

/-- The process-wide mutable state: `SETTINGS`, `STATS` and `USER_IDS`
(lines 68-71).  `USER_IDS` is a Python set of chat ids; it is modelled as a
duplicate-free list (the broadcast loop iterates it in this order). -/
structure BotState where
  settings : Settings
  stats : Stats
  users : List Int
deriving DecidableEq

/-- The state right after module load: `SILENT_POST` is `False`, no footer or
welcome template configured, all counters zero, no known users. -/
def initialState : BotState := ⟨⟨false, [], []⟩, ⟨0, 0, 0⟩, []⟩

/-- The fields of an incoming Telegram message that `news_forwarder` reads.
Telegram's absent text/caption (`None`) is the empty string here. -/
structure Message where
  text : PyStr
  caption : PyStr
deriving DecidableEq

/-- `main.py` line 160: `(message.text or message.caption or "").lower()` —
the text when it is non-empty, otherwise the caption, lowercased. -/
def messageContent (m : Message) : PyStr :=
  pyLower (if m.text.isEmpty then m.caption else m.text)

/-- The single outbound call `news_forwarder` attempts for one message. -/
inductive FwdAction where
  | forward
  | sendText (text : PyStr)
  | copyWithCaption (caption : PyStr)
deriving DecidableEq

/-- The `"\n\n"` separator inserted before the footer. -/
def nl2 : PyStr := ['\n', '\n']

/-- `main.py` lines 158-176, `news_forwarder`.  `bl` is `BLACKLIST_KEYWORDS`;
`sendOk` is the transport oracle for the one outbound call in the `try` block
(forward / send_message / copy), whose failure is caught and logged.  Returns
the new state and the outbound call attempted (`none` when the blacklist
filter drops the message before any processing). -/
def news_forwarder (bl : List PyStr) (m : Message) (sendOk : Bool)
    (s : BotState) : BotState × Option FwdAction :=
  if bl.any (fun keyword => decide (keyword <:+: messageContent m)) then (s, none)
  else
    let footer := s.settings.forwardFooter
    let action :=
      if footer.isEmpty then FwdAction.forward
      else if ¬ m.text.isEmpty then FwdAction.sendText (m.text ++ nl2 ++ footer)
      else FwdAction.copyWithCaption (m.caption ++ nl2 ++ footer)
    if sendOk then
      ({ s with stats := { s.stats with forwards_done := s.stats.forwards_done + 1 } },
       some action)
    else (s, some action)

/-- An effect of the promotional post job.  The `sleep` constructor exists so
that the absence of any pre-send delay in the code is expressible; the code
never emits it. -/
inductive PromoEffect where
  | sleep (duration : Nat)
  | sendAd (messageIndex : Nat) (silent : Bool)
deriving DecidableEq

/-- Whether a promotional-job effect is a sleep. -/
def PromoEffect.isSleep : PromoEffect → Bool
  | .sleep _ => true
  | _ => false

/-- `main.py` lines 147-156, `send_promotional_post_job`: pick a random entry
of the 3-element `PROMOTIONAL_MESSAGES` list (`random.choice`, modelled by the
oracle `r` taken modulo 3) and send it to the channel with
`disable_notification = SETTINGS["SILENT_POST"]`, read at send time.
`ads_sent` is incremented only when the send succeeds (`sendOk`). -/
def send_promotional_post_job (r : Nat) (sendOk : Bool) (s : BotState) :
    BotState × List PromoEffect :=
  let effects := [PromoEffect.sendAd (r % 3) s.settings.silentPost]
  if sendOk then
    ({ s with stats := { s.stats with ads_sent := s.stats.ads_sent + 1 } }, effects)
  else (s, effects)

/-- An operation `greet_new_members` performs after its guard. -/
inductive GreetEffect where
  | sendGreeting (text : PyStr)
  | scheduleDelete (delaySeconds : Nat) (messageId : Nat)
  | deleteServiceMessage
deriving DecidableEq

/-- The tail of the `username` placeholder, after its opening brace. -/
def usernameKey : PyStr := ['u','s','e','r','n','a','m','e','}']

/-- The tail of the `chat_title` placeholder, after its opening brace. -/
def chatTitleKey : PyStr := ['c','h','a','t','_','t','i','t','l','e','}']

/-- Python `template.format(username=u, chat_title=t)` restricted to the two
keyword placeholders the bot supplies. -/
def pyFormatTpl (u t : PyStr) : PyStr → PyStr
  | [] => []
  | c :: rest =>
    if c = '{' ∧ usernameKey.isPrefixOf rest then
      u ++ pyFormatTpl u t (rest.drop 9)
    else if c = '{' ∧ chatTitleKey.isPrefixOf rest then
      t ++ pyFormatTpl u t (rest.drop 11)
    else c :: pyFormatTpl u t rest
termination_by tpl => tpl.length
decreasing_by
  · simp; omega
  · simp; omega
  · simp

/-- An exception a handler raises out to the framework's error handling:
`AttributeError` from a failed attribute lookup, or a transport error
propagating from an unguarded outbound call. -/
inductive PyError where
  | attributeError
  | transportError
deriving DecidableEq

/-- Line 185 reads `update.chat.title`, but `telegram.Update` has no `chat`
attribute (the chat of a chat-member update is reached through
`update.chat_member.chat` or `update.effective_chat`), so the lookup raises
`AttributeError` no matter what the chat's actual title `_t` is. -/
def update_chat_title (_t : PyStr) : Except PyError PyStr :=
  Except.error PyError.attributeError

/-- `main.py` lines 181-190, `greet_new_members`.  `u` and `t` are the new
member's display name and the chat's actual title; `mid` is the message id
Telegram assigns to the sent greeting; `sendOk` is the oracle for the greeting
send (line 186 has no `try`, so a failure there raises out of the handler
before the schedule and the increment).  Line 185 builds the greeting text
from `update.chat.title`; that lookup (`update_chat_title`) raises, so every
invocation that passes the template guard aborts before the send.  The code
from line 186 on — send, 90-unit delayed delete, counter increment,
service-message cleanup (whose own failure is caught and changes nothing we
model) — sits in the branch that would run if the lookup succeeded. -/
def greet_new_members (u t : PyStr) (mid : Nat) (sendOk : Bool)
    (s : BotState) : Except PyError (BotState × List GreetEffect) :=
  if s.settings.welcomeMessage.isEmpty then Except.ok (s, [])
  else
    match update_chat_title t with
    | Except.error e => Except.error e
    | Except.ok title =>
      if sendOk then
        Except.ok
          ({ s with stats :=
              { s.stats with welcomes_sent := s.stats.welcomes_sent + 1 } },
           [GreetEffect.sendGreeting (pyFormatTpl u title s.settings.welcomeMessage),
            GreetEffect.scheduleDelete 90 mid,
            GreetEffect.deleteServiceMessage])
      else Except.error PyError.transportError

/-- `main.py` lines 80-87, `start`: `USER_IDS.add(update.effective_chat.id)`. -/
def start (chatId : Int) (s : BotState) : BotState :=
  if chatId ∈ s.users then s else { s with users := chatId :: s.users }

/-- The two callback payloads `settings_button_handler` distinguishes. -/
inductive CallbackData where
  | toggleSilentPost
  | closeSettings
deriving DecidableEq

/-- `main.py` lines 107-118, `settings_button_handler`:
`SETTINGS["SILENT_POST"] = not SETTINGS["SILENT_POST"]` on the toggle button. -/
def settings_button_handler (data : CallbackData) (s : BotState) : BotState :=
  match data with
  | .toggleSilentPost =>
      { s with settings := { s.settings with silentPost := ! s.settings.silentPost } }
  | .closeSettings => s

/-- The per-recipient outcome of one `bot.send_message` in the broadcast loop:
success, `telegram.error.Forbidden` (recipient blocked the bot), or any other
exception. -/
inductive SendOutcome where
  | success
  | forbidden
  | otherError
deriving DecidableEq

/-- The reply `broadcast_command` sends back to the invoking admin. -/
inductive BroadcastReply where
  | usage
  | report (success failed : Nat)
deriving DecidableEq

/-- `main.py` lines 134-144: the broadcast loop over `USER_IDS`, tallying
`success_count` and `failed_count` (both exception arms increment the same
failure counter). -/
def broadcastLoop (outcome : Int → SendOutcome) : List Int → Nat × Nat
  | [] => (0, 0)
  | u :: rest =>
    let tally := broadcastLoop outcome rest
    match outcome u with
    | .success => (tally.1 + 1, tally.2)
    | _ => (tally.1, tally.2 + 1)

/-- `main.py` lines 126-145, `broadcast_command`.  `argsText` is the raw text
after the command name; the framework's whitespace arg-split and the handler's
`" ".join(context.args)` are both modelled.  `outcome` is the per-recipient
transport oracle.  Returns the new state, the reply to the admin, and the list
of recipients a send was attempted for (every user gets an attempt: both
exception arms `continue`). -/
def broadcast_command (argsText : PyStr) (outcome : Int → SendOutcome)
    (s : BotState) : BotState × BroadcastReply × List Int :=
  let message := joinSpace (pySplitWs argsText)
  if message.isEmpty then (s, BroadcastReply.usage, [])
  else
    let tally := broadcastLoop outcome s.users
    (s, BroadcastReply.report tally.1 tally.2, s.users)

end Bot

namespace Bot

/-! ### Helper lemmas about the Python string primitives -/

/-- No lowercase output of the table is itself a key of the table. -/
theorem upperLowerTable_snd_find? :
    ∀ p ∈ upperLowerTable, upperLowerTable.find? (fun q => q.1 = p.2) = none := by
  decide

/-- Lowering a character twice is the same as lowering it once. -/
theorem pyLowerChar_idem (c : Char) : pyLowerChar (pyLowerChar c) = pyLowerChar c := by
  cases h : upperLowerTable.find? (fun p => p.1 = c) with
  | none => simp [pyLowerChar, h]
  | some p =>
      simp [pyLowerChar, h,
        upperLowerTable_snd_find? p (List.mem_of_find?_eq_some h)]

/-- Lowering a string twice is the same as lowering it once. -/
theorem pyLower_idem (s : PyStr) : pyLower (pyLower s) = pyLower s := by
  induction s with
  | nil => rfl
  | cons c rest ih =>
      simp only [pyLower] at ih
      simp only [pyLower, List.map_cons, pyLowerChar_idem, ih]

/-- `str.split(',')` always yields at least one piece. -/
theorem pySplitComma_ne_nil (s : PyStr) : pySplitComma s ≠ [] := by
  induction s with
  | nil => simp [pySplitComma]
  | cons c rest ih =>
      simp only [pySplitComma]
      split
      · simp
      · cases h : pySplitComma rest with
        | nil => exact absurd h ih
        | cons p ps => simp [h]

/-- If a string consists only of commas and whitespace, every piece of its
comma-split consists only of whitespace. -/
theorem pySplitComma_all_space (s : PyStr) (h : ∀ c ∈ s, c = ',' ∨ pyIsSpace c) :
    ∀ p ∈ pySplitComma s, ∀ c ∈ p, pyIsSpace c = true := by
  induction s with
  | nil => intro p hp c hc; simp [pySplitComma] at hp; simp [hp] at hc
  | cons a rest ih =>
      intro p hp c hc
      have hrest : ∀ c ∈ rest, c = ',' ∨ pyIsSpace c := fun c hc => h c (by simp [hc])
      simp only [pySplitComma] at hp
      by_cases ha : a = ','
      · rw [if_pos ha] at hp
        rcases List.mem_cons.mp hp with rfl | hp'
        · simp at hc
        · exact ih hrest p hp' c hc
      · rw [if_neg ha] at hp
        cases hsp : pySplitComma rest with
        | nil => exact absurd hsp (pySplitComma_ne_nil rest)
        | cons q qs =>
            rw [hsp] at hp
            rcases List.mem_cons.mp hp with rfl | hp'
            · rcases List.mem_cons.mp hc with rfl | hc'
              · rcases h c (by simp) with h1 | h2
                · exact absurd h1 ha
                · exact h2
              · exact ih hrest q (by simp [hsp]) c hc'
            · exact ih hrest p (by simp [hsp, hp']) c hc

/-- Stripping an all-whitespace string yields the empty string. -/
theorem pyStrip_eq_nil (p : PyStr) (h : ∀ c ∈ p, pyIsSpace c = true) :
    pyStrip p = [] := by
  unfold pyStrip
  rw [List.dropWhile_eq_nil_iff.mpr h]
  simp

/-- A blacklist string made only of commas and whitespace loads as the empty
keyword list. -/
theorem loadBlacklist_sep_only (env : PyStr) (h : ∀ c ∈ env, c = ',' ∨ pyIsSpace c) :
    loadBlacklist env = [] := by
  unfold loadBlacklist
  rw [List.filterMap_eq_nil_iff]
  intro p hp
  have hws := pySplitComma_all_space env h p hp
  simp [pyStrip_eq_nil p hws]

/-- Splitting an all-whitespace string on whitespace yields no pieces. -/
theorem pySplitWs_all_space (s : PyStr) (h : ∀ c ∈ s, pyIsSpace c = true) :
    pySplitWs s = [] := by
  unfold pySplitWs
  induction s with
  | nil => rfl
  | cons c rest ih =>
      have hc := h c (by simp)
      simp only [pySplitWsAux, hc, if_pos, List.isEmpty_nil, if_true]
      exact ih (fun c hc => h c (by simp [hc]))

/-! ### Lemmas about the broadcast loop -/

/-- The two tallies of the broadcast loop always sum to the number of
recipients. -/
theorem broadcastLoop_sum (outcome : Int → SendOutcome) (us : List Int) :
    (broadcastLoop outcome us).1 + (broadcastLoop outcome us).2 = us.length := by
  induction us with
  | nil => rfl
  | cons u rest ih =>
      simp only [broadcastLoop]
      cases outcome u <;> simp [List.length_cons] <;> omega

/-- When every send succeeds, the loop tallies (length, 0). -/
theorem broadcastLoop_all_success (outcome : Int → SendOutcome) (us : List Int)
    (h : ∀ u ∈ us, outcome u = SendOutcome.success) :
    broadcastLoop outcome us = (us.length, 0) := by
  induction us with
  | nil => rfl
  | cons u rest ih =>
      have hu := h u (by simp)
      simp [broadcastLoop, ih (fun v hv => h v (by simp [hv])), hu]

/-- When every send either succeeds or is blocked, the failure tally counts
exactly the blocked recipients. -/
theorem broadcastLoop_failed_eq_forbidden (outcome : Int → SendOutcome) (us : List Int)
    (h : ∀ u ∈ us, outcome u = SendOutcome.success ∨ outcome u = SendOutcome.forbidden) :
    (broadcastLoop outcome us).2 =
      us.countP (fun u => outcome u = SendOutcome.forbidden) := by
  induction us with
  | nil => rfl
  | cons u rest ih =>
      have ih' := ih (fun v hv => h v (by simp [hv]))
      rcases h u (by simp) with hu | hu <;>
        simp [broadcastLoop, List.countP_cons, hu, ih']

end Bot

namespace Bot

/-! ### Claim theorems -/

/-- C1 counterexample: with blacklist `"spam"` and a message whose text is
`"hello"` and caption `"buy SPAM now"`, the keyword is a case-insensitive
substring of the concatenation of text and caption, yet the forwarder does not
drop the message — it attempts the outbound call and (on success) increments
`forwards_done` — because the code reads `message.text or message.caption`,
not their concatenation. -/
theorem news_forwarder_concat_counterexample :
    (∃ k ∈ loadBlacklist ("spam".toList),
        k <:+: pyLower ("hello".toList ++ "buy SPAM now".toList)) ∧
    (news_forwarder (loadBlacklist ("spam".toList))
        ⟨"hello".toList, "buy SPAM now".toList⟩ true initialState).2 ≠ none ∧
    (news_forwarder (loadBlacklist ("spam".toList))
        ⟨"hello".toList, "buy SPAM now".toList⟩ true
        initialState).1.stats.forwards_done = 1 := by
  decide

/-- C1 (amended): the content the filter inspects is the message text when it
is non-empty and otherwise the caption, lowercased (`messageContent`, from
`message.text or message.caption or ""`), not the concatenation of the two.
The forwarder drops the message — no outbound call attempted and the state
(in particular `forwards_done`) unchanged — if and only if some configured
blacklist keyword is a substring of that content; the filter is the first
thing evaluated, so a dropped message undergoes no other processing. -/
theorem news_forwarder_blacklist_filter (bl : List PyStr) (m : Message)
    (ok : Bool) (s : BotState) :
    ((news_forwarder bl m ok s).2 = none ∧ (news_forwarder bl m ok s).1 = s) ↔
      ∃ k ∈ bl, k <:+: messageContent m := by
  by_cases h : bl.any (fun keyword => decide (keyword <:+: messageContent m)) = true
  · constructor
    · intro _
      simpa [List.any_eq_true] using h
    · intro _
      simp [news_forwarder, h]
  · constructor
    · intro hc
      have h2 := hc.1
      cases ok <;> simp [news_forwarder, h] at h2
    · intro hex
      exact absurd (by simpa [List.any_eq_true] using hex) h

/-- C2: each counter changes by exactly 1 on the success path of its operation
and by 0 on every failure path, and no other handler touches the counters:
`ads_sent` goes up by 1 exactly when the promotional send succeeds,
`forwards_done` exactly when the message is not dropped and the relay call
succeeds; the greeter's only reachable outcomes are the no-template return and
the line-185 AttributeError, both of which leave the state — in particular
`welcomes_sent` — unchanged (its success path, which would add 1, is
unreachable); `start`, the settings buttons and the broadcast command leave
`STATS` unchanged. -/
theorem stats_counters_exact (r : Nat) (ok : Bool) (s : BotState)
    (bl : List PyStr) (m : Message) (u t : PyStr) (mid : Nat)
    (argsText : PyStr) (outcome : Int → SendOutcome) (cid : Int)
    (d : CallbackData) :
    ((send_promotional_post_job r ok s).1.stats =
      if ok then { s.stats with ads_sent := s.stats.ads_sent + 1 } else s.stats) ∧
    ((news_forwarder bl m ok s).1.stats =
      if (news_forwarder bl m ok s).2.isSome && ok then
        { s.stats with forwards_done := s.stats.forwards_done + 1 }
      else s.stats) ∧
    (greet_new_members u t mid ok s = Except.ok (s, []) ∨
      greet_new_members u t mid ok s = Except.error PyError.attributeError) ∧
    (start cid s).stats = s.stats ∧
    (settings_button_handler d s).stats = s.stats ∧
    (broadcast_command argsText outcome s).1.stats = s.stats := by
  refine ⟨?_, ?_, ?_, ?_, ?_, ?_⟩
  · cases ok <;> simp [send_promotional_post_job]
  · by_cases h : bl.any (fun keyword => decide (keyword <:+: messageContent m)) = true
    · simp [news_forwarder, h]
    · cases ok <;> simp [news_forwarder, h]
  · by_cases h : s.settings.welcomeMessage.isEmpty
    · left
      simp [greet_new_members, h]
    · right
      simp [greet_new_members, h, update_chat_title]
  · by_cases h : cid ∈ s.users <;> simp [start, h]
  · cases d <;> simp [settings_button_handler]
  · by_cases h : (joinSpace (pySplitWs argsText)).isEmpty <;>
      simp [broadcast_command, h]

/-- C3: for a broadcast with non-empty message text over the known-users set
of size N, all sends succeeding yields a final report of success = N and
failed = 0; exactly M sends failing with the blocked-by-recipient (Forbidden)
condition and the rest succeeding yields success = N − M and failed = M; and
in every outcome the reported tallies sum to N. -/
theorem broadcast_command_tallies (argsText : PyStr)
    (outcome : Int → SendOutcome) (s : BotState)
    (hne : joinSpace (pySplitWs argsText) ≠ []) :
    ((∀ u ∈ s.users, outcome u = SendOutcome.success) →
      (broadcast_command argsText outcome s).2.1 =
        BroadcastReply.report s.users.length 0) ∧
    (∀ M, s.users.countP (fun u => outcome u = SendOutcome.forbidden) = M →
      (∀ u ∈ s.users,
        outcome u = SendOutcome.success ∨ outcome u = SendOutcome.forbidden) →
      (broadcast_command argsText outcome s).2.1 =
        BroadcastReply.report (s.users.length - M) M) ∧
    (∃ a b, (broadcast_command argsText outcome s).2.1 =
        BroadcastReply.report a b ∧ a + b = s.users.length) := by
  have hne' : ¬ (joinSpace (pySplitWs argsText)).isEmpty := by
    simpa [List.isEmpty_iff] using hne
  refine ⟨?_, ?_, ?_⟩
  · intro hall
    simp [broadcast_command, hne', broadcastLoop_all_success outcome s.users hall]
  · intro M hM hdich
    have hfail := broadcastLoop_failed_eq_forbidden outcome s.users hdich
    have hsum := broadcastLoop_sum outcome s.users
    simp only [broadcast_command, hne', Bool.false_eq_true, if_false]
    rw [hfail, hM] at hsum ⊢
    have : (broadcastLoop outcome s.users).1 = s.users.length - M := by omega
    rw [this]
  · refine ⟨(broadcastLoop outcome s.users).1, (broadcastLoop outcome s.users).2,
      ?_, broadcastLoop_sum outcome s.users⟩
    simp [broadcast_command, hne']

/-- Witness for C3 at a concrete input: three known users of which exactly the
second is blocked; the report is success = 2, failed = 1. -/
theorem broadcast_command_tallies_witness :
    (broadcast_command ("hi".toList)
        (fun u => if u = 2 then SendOutcome.forbidden else SendOutcome.success)
        ⟨⟨false, [], []⟩, ⟨0, 0, 0⟩, [1, 2, 3]⟩).2.1 =
      BroadcastReply.report 2 1 := by
  have h := (broadcast_command_tallies ("hi".toList)
      (fun u => if u = 2 then SendOutcome.forbidden else SendOutcome.success)
      ⟨⟨false, [], []⟩, ⟨0, 0, 0⟩, [1, 2, 3]⟩ (by decide)).2.1
      1 (by decide) (by decide)
  simpa using h

/-- C4: a broadcast invoked with empty or all-whitespace message text replies
with the usage message, attempts zero recipient sends, and leaves the whole
state (settings, counters, known users) unchanged. -/
theorem broadcast_command_empty_guard (argsText : PyStr)
    (outcome : Int → SendOutcome) (s : BotState)
    (h : ∀ c ∈ argsText, pyIsSpace c = true) :
    broadcast_command argsText outcome s = (s, BroadcastReply.usage, []) := by
  simp [broadcast_command, pySplitWs_all_space argsText h, joinSpace]

/-- Witness for C4 at a concrete input: an all-whitespace broadcast text. -/
theorem broadcast_command_empty_guard_witness :
    broadcast_command ("  ".toList)
        (fun _ => SendOutcome.success)
        ⟨⟨false, [], []⟩, ⟨0, 0, 0⟩, [1, 2, 3]⟩ =
      (⟨⟨false, [], []⟩, ⟨0, 0, 0⟩, [1, 2, 3]⟩, BroadcastReply.usage, []) := by
  exact broadcast_command_empty_guard ("  ".toList)
    (fun _ => SendOutcome.success)
    ⟨⟨false, [], []⟩, ⟨0, 0, 0⟩, [1, 2, 3]⟩ (by decide)

end Bot

namespace Bot

/-! ### Step lemmas for the template renderer -/

/-- Rendering the empty template yields the empty string. -/
theorem pyFormatTpl_nil (u t : PyStr) : pyFormatTpl u t [] = [] := by
  rw [pyFormatTpl]

/-- Rendering a template that starts with the `username` placeholder emits the
member name. -/
theorem pyFormatTpl_user (u t rest : PyStr) :
    pyFormatTpl u t ('{' :: 'u' :: 's' :: 'e' :: 'r' :: 'n' :: 'a' :: 'm' :: 'e' :: '}' :: rest) =
      u ++ pyFormatTpl u t rest := by
  rw [pyFormatTpl]
  simp [usernameKey, List.isPrefixOf]

/-- Rendering a template that starts with the `chat_title` placeholder emits
the chat title. -/
theorem pyFormatTpl_chat (u t rest : PyStr) :
    pyFormatTpl u t
        ('{' :: 'c' :: 'h' :: 'a' :: 't' :: '_' :: 't' :: 'i' :: 't' :: 'l' :: 'e' :: '}' :: rest) =
      t ++ pyFormatTpl u t rest := by
  rw [pyFormatTpl]
  simp [usernameKey, chatTitleKey, List.isPrefixOf]

/-- Any character other than an opening brace is copied through verbatim. -/
theorem pyFormatTpl_lit (u t : PyStr) (c : Char) (rest : PyStr)
    (h : ¬ c = '{') :
    pyFormatTpl u t (c :: rest) = c :: pyFormatTpl u t rest := by
  rw [pyFormatTpl]
  simp [h]

/-- The spec's example template "Welcome {username} to {chat_title}". -/
def welcomeTpl : PyStr :=
  ['W','e','l','c','o','m','e',' ','{','u','s','e','r','n','a','m','e','}',
   ' ','t','o',' ','{','c','h','a','t','_','t','i','t','l','e','}']

/-- Rendering the example template substitutes both placeholders. -/
theorem pyFormatTpl_welcomeTpl (u t : PyStr) :
    pyFormatTpl u t welcomeTpl =
      ['W','e','l','c','o','m','e',' '] ++ u ++ [' ','t','o',' '] ++ t := by
  simp [welcomeTpl, pyFormatTpl_user, pyFormatTpl_chat, pyFormatTpl_lit,
    pyFormatTpl_nil]

/-- C5: when a forward footer is configured, the message text is non-empty and
the blacklist does not drop the message, the relayed content is a new text
message equal to the original text, then exactly two newline characters, then
the footer, with no trimming. -/
theorem news_forwarder_footer_text (bl : List PyStr) (m : Message)
    (ok : Bool) (s : BotState)
    (hbl : ¬ ∃ k ∈ bl, k <:+: messageContent m)
    (hfooter : s.settings.forwardFooter ≠ [])
    (htext : m.text ≠ []) :
    (news_forwarder bl m ok s).2 =
      some (FwdAction.sendText
        (m.text ++ ['\n', '\n'] ++ s.settings.forwardFooter)) := by
  have hany : bl.any (fun keyword => decide (keyword <:+: messageContent m))
      = false := by
    rw [List.any_eq_false]
    intro k hk
    simpa using fun hinf => hbl ⟨k, hk, hinf⟩
  cases ok <;>
    simp [news_forwarder, hany, nl2, List.isEmpty_iff, hfooter, htext]

/-- Witness for C5 at the spec's instance: message text "hello" and footer
"Visit us" relay exactly "hello\n\nVisit us". -/
theorem news_forwarder_footer_text_witness :
    (news_forwarder [] ⟨"hello".toList, []⟩ true
        ⟨⟨false, "Visit us".toList, []⟩, ⟨0, 0, 0⟩, []⟩).2 =
      some (FwdAction.sendText ("hello\n\nVisit us".toList)) := by
  have h := news_forwarder_footer_text [] ⟨"hello".toList, []⟩ true
      ⟨⟨false, "Visit us".toList, []⟩, ⟨0, 0, 0⟩, []⟩
      (by simp) (by decide) (by decide)
  rw [h]
  decide

/-- C6: the no-template half of the claim holds (no send, `welcomes_sent`
unchanged), but the configured-template half describes behavior the code
cannot reach: with the template "Welcome {username} to {chat_title}"
configured and member "Ann" joining chat "News", line 185's `update.chat.title`
raises AttributeError before the send, so no greeting is sent, no deletion is
scheduled and `welcomes_sent` stays 0 — the code contradicts the documented
welcome feature (help text, line 93) and the spec's clear intent. -/
theorem greet_new_members_attribute_error :
    greet_new_members ("Ann".toList) ("News".toList) 7 true
        ⟨⟨false, [], welcomeTpl⟩, ⟨0, 0, 0⟩, []⟩ =
      Except.error PyError.attributeError ∧
    greet_new_members ("Ann".toList) ("News".toList) 7 true initialState =
      Except.ok (initialState, []) := by
  exact ⟨rfl, rfl⟩

/-- C7 fails on the code: `SETTINGS` (line 68) has only the keys SILENT_POST,
FORWARD_FOOTER and WELCOME_MESSAGE — no anti_ban_delay flag exists — and
`send_promotional_post_job` never sleeps: at a concrete state with its one
boolean setting enabled, the job's effect trace is a single send and no
sleep. -/
theorem send_promotional_post_job_sleep_counterexample :
    ((send_promotional_post_job 0 true
        ⟨⟨true, [], []⟩, ⟨0, 0, 0⟩, []⟩).2.map PromoEffect.isSleep) = [false] := by
  decide

/-- C7 (amended): Settings carries no anti_ban_delay flag, and the promotional
post job performs no pre-send delay: for every state and oracle its effect
trace has exactly one element and contains no sleep. -/
theorem send_promotional_post_job_no_sleep (r : Nat) (ok : Bool)
    (s : BotState) :
    (send_promotional_post_job r ok s).2.all (fun e => ! e.isSleep) = true ∧
    (send_promotional_post_job r ok s).2.length = 1 := by
  cases ok <;> simp [send_promotional_post_job, PromoEffect.isSleep]

/-- C8: the notification-suppression flag of the ad send equals SILENT_POST at
the moment of the send: for every state the emitted send carries the current
`silentPost`, and running the job on the state left by the admin's silent-post
toggle (fired between schedule and send) carries the toggled value. -/
theorem send_promotional_post_job_silent_fresh (r : Nat) (ok : Bool)
    (s : BotState) :
    (send_promotional_post_job r ok s).2 =
      [PromoEffect.sendAd (r % 3) s.settings.silentPost] ∧
    (send_promotional_post_job r ok
        (settings_button_handler CallbackData.toggleSilentPost s)).2 =
      [PromoEffect.sendAd (r % 3) (! s.settings.silentPost)] := by
  cases ok <;> simp [send_promotional_post_job, settings_button_handler]

/-- C9: the known-users set is insertion-only: `start` inserts the caller's
chat id and keeps every existing member; the broadcast command leaves the set
unchanged even when sends fail (failures only enter the ephemeral tally of the
report); and no other handler modifies the set. -/
theorem user_ids_insertion_only (cid : Int) (argsText : PyStr)
    (outcome : Int → SendOutcome) (d : CallbackData) (r : Nat) (ok : Bool)
    (bl : List PyStr) (m : Message) (u t : PyStr) (mid : Nat) (s : BotState) :
    cid ∈ (start cid s).users ∧
    s.users ⊆ (start cid s).users ∧
    (broadcast_command argsText outcome s).1.users = s.users ∧
    (settings_button_handler d s).users = s.users ∧
    (send_promotional_post_job r ok s).1.users = s.users ∧
    (news_forwarder bl m ok s).1.users = s.users ∧
    (greet_new_members u t mid ok s = Except.ok (s, []) ∨
      greet_new_members u t mid ok s = Except.error PyError.attributeError) := by
  refine ⟨?_, ?_, ?_, ?_, ?_, ?_, ?_⟩
  · by_cases h : cid ∈ s.users <;> simp [start, h]
  · by_cases h : cid ∈ s.users <;> simp [start, h, List.subset_cons_of_subset]
  · by_cases h : (joinSpace (pySplitWs argsText)).isEmpty <;>
      simp [broadcast_command, h]
  · cases d <;> simp [settings_button_handler]
  · cases ok <;> simp [send_promotional_post_job]
  · by_cases h : bl.any (fun keyword => decide (keyword <:+: messageContent m)) = true
    · simp [news_forwarder, h]
    · cases ok <;> simp [news_forwarder, h]
  · by_cases h : s.settings.welcomeMessage.isEmpty
    · left
      simp [greet_new_members, h]
    · right
      simp [greet_new_members, h, update_chat_title]

/-- C10: every keyword the blacklist loader produces is non-empty and already
lowercase (lowering it again changes nothing), and a BLACKLIST_KEYWORDS value
consisting only of commas and whitespace loads as the empty keyword list,
under which the forwarder's filter drops no message. -/
theorem loadBlacklist_spec (env : PyStr) :
    (∀ k ∈ loadBlacklist env, k ≠ [] ∧ pyLower k = k) ∧
    ((∀ c ∈ env, c = ',' ∨ pyIsSpace c = true) →
      loadBlacklist env = [] ∧
      ∀ (m : Message) (ok : Bool) (s : BotState),
        (news_forwarder (loadBlacklist env) m ok s).2 ≠ none) := by
  constructor
  · intro k hk
    rw [loadBlacklist, List.mem_filterMap] at hk
    obtain ⟨a, _, hfa⟩ := hk
    by_cases he : (pyStrip a).isEmpty = true
    · rw [if_pos he] at hfa
      exact absurd hfa (by simp)
    · rw [if_neg he] at hfa
      obtain rfl : pyLower (pyStrip a) = k := Option.some.inj hfa
      refine ⟨?_, pyLower_idem _⟩
      intro hnil
      cases hstrip : pyStrip a with
      | nil => exact he (by rw [hstrip]; rfl)
      | cons c cs =>
          rw [hstrip] at hnil
          simp [pyLower] at hnil
  · intro h
    have hbl := loadBlacklist_sep_only env h
    refine ⟨hbl, ?_⟩
    intro m ok s
    cases ok <;> simp [news_forwarder, hbl]

/-- Witness for C10 at a concrete input: a value of commas and spaces only
loads no keywords, and the resulting filter lets a message through. -/
theorem loadBlacklist_spec_witness :
    loadBlacklist (" ,, ".toList) = [] ∧
    (news_forwarder (loadBlacklist (" ,, ".toList)) ⟨"x".toList, []⟩ true
        initialState).2 ≠ none := by
  have h := (loadBlacklist_spec (" ,, ".toList)).2 (by decide)
  exact ⟨h.1, h.2 ⟨"x".toList, []⟩ true initialState⟩

end Bot
